import Mathlib

/-!
Verification of the camera streaming server (`server.py`).

The source is a FastAPI websocket server: every websocket connection to
`/ws/camera` constructs its own `CameraStreamer`, which opens a
`cv2.VideoCapture` for the requested `camera_id`, runs a background capture
thread writing the latest frame into a single slot under a lock, and the
handler's delivery loop polls `get_frame` (JPEG encode), snappy-compresses the
bytes and pushes them over the websocket at an interval of `1.0 / fps`.

The embedding below represents effects (websocket accept/send/close, device
acquisition and release, logging, sleeping, thread signalling) as an explicit
event trace, and the per-connection mutable state (`cap`, `frame`, `running`)
as a record that each modelled operation transforms. The environment -
whether the device opens, what each `cap.read()` yields, whether JPEG
encoding succeeds, and when the websocket raises - is passed in as explicit
data, so every definition is executable.
-/

namespace CameraStream

/-- Raw frames are opaque bitmaps; the embedding only needs to tell frames
apart, so they are represented as natural numbers. -/
abbrev Frame := Nat

/-- Model of a `cv2.VideoCapture` object: the device it was constructed for,
whether the open succeeded (`isOpened()`), and the three properties the code
sets (`CAP_PROP_FRAME_WIDTH/HEIGHT/FPS`). -/
structure VideoCapture where
  camera_id : Int
  opened : Bool
  propWidth : Int
  propHeight : Int
  propFps : Int
deriving Repr, DecidableEq

/-- `cv2.VideoCapture.release()`: closes the device if it is opened and is a
no-op otherwise (OpenCV guards the physical release on the opened state).
The returned `Bool` records whether a physical release of the device handle
occurred on this call. -/
def VideoCapture.releaseCap (c : VideoCapture) : VideoCapture × Bool :=
  if c.opened then ({ c with opened := false }, true) else (c, false)

/-- The observable events of one connection's lifetime, in order. -/
inductive Ev where
  /-- `await websocket.accept()` -/
  | accept
  /-- a successful device acquisition (`cv2.VideoCapture(id)` that opened) -/
  | acquire (id : Int)
  /-- `await websocket.send_text(s)` -/
  | sendText (s : String)
  /-- `await websocket.send_bytes(b)` -/
  | sendBytes (b : List Nat)
  /-- `await websocket.close()` -/
  | close
  /-- `asyncio.sleep(...)` -/
  | sleep
  /-- `logger.warning(...)` -/
  | logWarn
  /-- `logger.info(...)` -/
  | logInfo
  /-- `logger.exception(...)` from the generic `except Exception` branch -/
  | logExc
  /-- `self.running = False` - signalling the capture thread to exit -/
  | signalStop
  /-- `self.thread.join(timeout=t)` - bounded wait for the capture thread -/
  | joinWait (t : Nat)
  /-- a physical release of the device handle (`cap.release()` while open) -/
  | physRelease (id : Int)
deriving Repr, DecidableEq

/-- Per-connection state of a `CameraStreamer` instance: the id it was built
with, its own capture object, the single-slot frame cache (`self.frame`,
initially `None`), and the capture-loop flag (`self.running`). -/
structure CameraStreamer where
  camera_id : Int
  cap : VideoCapture
  frame : Option Frame
  running : Bool
deriving Repr, DecidableEq

/-- `CameraStreamer.__init__`: construct `cv2.VideoCapture(camera_id)`
(whether the open succeeds is the environment input `canOpen`); if it is not
opened, raise `RuntimeError(f"无法打开摄像头 {camera_id}")`; otherwise set the
width/height/fps properties, initialise the empty frame slot, set
`running = True` and start the capture thread. Returns the new streamer and
the acquisition events, or the exception message. -/
def CameraStreamer.init (canOpen : Bool) (camera_id width height fps : Int) :
    Except String (CameraStreamer × List Ev) :=
  let cap0 : VideoCapture := ⟨camera_id, canOpen, 0, 0, 0⟩
  if cap0.opened then
    let cap : VideoCapture := ⟨camera_id, true, width, height, fps⟩
    Except.ok (⟨camera_id, cap, none, true⟩, [Ev.acquire camera_id])
  else
    Except.error ("无法打开摄像头 " ++ toString camera_id)

/-- One iteration of `CameraStreamer._update_frame`'s `while self.running`
body, given the result of `self.cap.read()` (`some f` when `ret` is true):
on success overwrite the frame slot under the lock; on failure log a warning
and sleep 0.05s. When `running` is false the loop body does not run. -/
def CameraStreamer.updateIter (s : CameraStreamer) (read : Option Frame) :
    CameraStreamer × List Ev :=
  if s.running then
    match read with
    | some f => ({ s with frame := some f }, [])
    | none => (s, [Ev.logWarn, Ev.sleep])
  else (s, [])

/-- `cv2.imencode(".jpg", frame, ...)` on a successful encode, as an opaque
injective byte rendering of the frame. -/
def jpegEncode (f : Frame) : List Nat := [f]

/-- `snappy.compress` on the JPEG bytes, as an opaque injective transform. -/
def snappyCompress (b : List Nat) : List Nat := b.length :: b

/-- `CameraStreamer.get_frame`: under the lock, return `None` if no frame has
ever been captured; otherwise JPEG-encode the cached frame, returning `None`
(after logging an error) if the encode fails. `encodeOk` is the environment
input saying whether `cv2.imencode` succeeds on this call. -/
def CameraStreamer.get_frame (s : CameraStreamer) (encodeOk : Bool) :
    Option (List Nat) :=
  match s.frame with
  | none => none
  | some f => if encodeOk then some (jpegEncode f) else none

/-- `CameraStreamer.release`: set `running = False`, `thread.join(timeout=1)`,
then `cap.release()` (a physical release only when the capture is still open),
then log. Returns the new state and the events of this call. -/
def CameraStreamer.release (s : CameraStreamer) : CameraStreamer × List Ev :=
  let s1 : CameraStreamer := { s with running := false }
  let rel := s1.cap.releaseCap
  ({ s1 with cap := rel.1 },
    [Ev.signalStop, Ev.joinWait 1]
      ++ (if rel.2 then [Ev.physRelease s.camera_id] else [])
      ++ [Ev.logInfo])

/-- Environment for one iteration of the handler's delivery loop: whether the
concurrent capture thread ran an iteration just before this tick (and the
read result it got), and whether JPEG encoding succeeds on this tick. -/
structure Tick where
  capRead : Option (Option Frame)
  encodeOk : Bool
deriving Repr, DecidableEq

/-- The capture-thread activity interleaved before a delivery tick. -/
def capPhase (s : CameraStreamer) (t : Tick) : CameraStreamer :=
  match t.capRead with
  | some r => (s.updateIter r).1
  | none => s

/-- One iteration of the delivery loop in `websocket_camera`:
`buffer = streamer.get_frame()`; if it is not `None`, snappy-compress and
`send_bytes`; then sleep for the delay. -/
def tickStep (s : CameraStreamer) (t : Tick) : CameraStreamer × List Ev :=
  let s1 := capPhase s t
  match s1.get_frame t.encodeOk with
  | some b => (s1, [Ev.sendBytes (snappyCompress b), Ev.sleep])
  | none => (s1, [Ev.sleep])

/-- The delivery loop, run for a finite schedule of ticks (the loop in the
source iterates until the websocket raises; the schedule is the finite run
before that exception). -/
def deliveryLoop (s : CameraStreamer) : List Tick → CameraStreamer × List Ev
  | [] => (s, [])
  | t :: ts =>
    let st := tickStep s t
    let rest := deliveryLoop st.1 ts
    (rest.1, st.2 ++ rest.2)

/-- How the delivery loop's `while True` is eventually left: which of the
handler's `except` branches fires. -/
inductive ExitKind where
  /-- `except WebSocketDisconnect` -/
  | disconnect
  /-- `except ConnectionClosedOK` -/
  | closedOK
  /-- `except Exception` -/
  | internalExc
deriving Repr, DecidableEq

/-- The logging each `except` branch performs. -/
def exitEvents : ExitKind → List Ev
  | ExitKind.disconnect => [Ev.logInfo]
  | ExitKind.closedOK => [Ev.logInfo]
  | ExitKind.internalExc => [Ev.logExc]

/-- The `websocket_camera` handler: accept; construct a `CameraStreamer`
(on `RuntimeError` send the textual error once, close, and return); otherwise
compute `delay = 1.0 / fps` - which raises `ZeroDivisionError` into the
generic `except Exception` branch when `fps = 0` - run the delivery loop until
the scheduled exit, and in all cases run `streamer.release()` in `finally`. -/
def websocket_camera (canOpen : Bool) (camera_id width height fps : Int)
    (ticks : List Tick) (exit : ExitKind) : List Ev :=
  Ev.accept ::
  match CameraStreamer.init canOpen camera_id width height fps with
  | Except.error e => [Ev.sendText ("ERROR: " ++ e), Ev.close]
  | Except.ok (s, evs) =>
    evs ++
    if fps = 0 then
      Ev.logExc :: (s.release).2
    else
      let run := deliveryLoop s ticks
      run.2 ++ exitEvents exit ++ (run.1.release).2

/-- The trace of the subscribe phase of one connection alone (accept plus
device acquisition, or the error path), before any delivery or teardown:
used to examine what two overlapping subscribers do. -/
def subscribeOnly (canOpen : Bool) (camera_id width height fps : Int) :
    List Ev :=
  Ev.accept ::
  match CameraStreamer.init canOpen camera_id width height fps with
  | Except.error e => [Ev.sendText ("ERROR: " ++ e), Ev.close]
  | Except.ok (_, evs) => evs

/-- Recognises a successful device acquisition event. -/
def isAcquire : Ev → Bool
  | Ev.acquire _ => true
  | _ => false

/-- Recognises a `send_text` event. -/
def isSendText : Ev → Bool
  | Ev.sendText _ => true
  | _ => false

/-- Recognises a `send_bytes` event. -/
def isSendBytes : Ev → Bool
  | Ev.sendBytes _ => true
  | _ => false

/-- Recognises a physical device-handle release event. -/
def isPhysRelease : Ev → Bool
  | Ev.physRelease _ => true
  | _ => false

/-- Recognises the `running = False` stop signal (the entry into
`CameraStreamer.release`). -/
def isSignalStop : Ev → Bool
  | Ev.signalStop => true
  | _ => false

/-- Recognises a `websocket.close()` event. -/
def isClose : Ev → Bool
  | Ev.close => true
  | _ => false

/-- Number of successful device acquisitions in a trace. -/
def countAcquire (t : List Ev) : Nat := t.countP isAcquire

/-- Number of `send_text` calls in a trace. -/
def countSendText (t : List Ev) : Nat := t.countP isSendText

/-- Number of `send_bytes` calls in a trace. -/
def countSendBytes (t : List Ev) : Nat := t.countP isSendBytes

/-- Number of physical device-handle releases in a trace. -/
def countPhysRelease (t : List Ev) : Nat := t.countP isPhysRelease

/-- Number of cleanup entries (`running = False` stop signals) in a trace. -/
def countSignalStop (t : List Ev) : Nat := t.countP isSignalStop

/-- Number of `websocket.close()` calls in a trace. -/
def countClose (t : List Ev) : Nat := t.countP isClose

/-- The streamer state produced by a successful `CameraStreamer.__init__`. -/
def streamer0 (camera_id width height fps : Int) : CameraStreamer :=
  ⟨camera_id, ⟨camera_id, true, width, height, fps⟩, none, true⟩

/-! ### Helper lemmas about the delivery loop and release -/

theorem deliveryLoop_cons (s : CameraStreamer) (t : Tick) (ts : List Tick) :
    deliveryLoop s (t :: ts)
      = ((deliveryLoop (tickStep s t).1 ts).1,
          (tickStep s t).2 ++ (deliveryLoop (tickStep s t).1 ts).2) := rfl

theorem tickStep_events (s : CameraStreamer) (t : Tick) :
    (tickStep s t).2 = [Ev.sleep]
      ∨ ∃ b, (tickStep s t).2 = [Ev.sendBytes b, Ev.sleep] := by
  unfold tickStep
  cases hg : (capPhase s t).get_frame t.encodeOk with
  | none => exact Or.inl (by simp [hg])
  | some b => exact Or.inr ⟨snappyCompress b, by simp [hg]⟩

theorem deliveryLoop_mem (s : CameraStreamer) (ts : List Tick) (e : Ev)
    (he : e ∈ (deliveryLoop s ts).2) :
    e = Ev.sleep ∨ ∃ b, e = Ev.sendBytes b := by
  induction ts generalizing s with
  | nil => simp [deliveryLoop] at he
  | cons t ts ih =>
    rw [deliveryLoop_cons] at he
    rcases List.mem_append.1 he with h | h
    · rcases tickStep_events s t with hev | ⟨b, hev⟩ <;> rw [hev] at h <;>
        simp at h
      · exact Or.inl h
      · rcases h with h | h
        · exact Or.inr ⟨b, h⟩
        · exact Or.inl h
    · exact ih _ h

theorem deliveryLoop_countP_zero (p : Ev → Bool) (hsl : p Ev.sleep = false)
    (hsb : ∀ b, p (Ev.sendBytes b) = false) (s : CameraStreamer)
    (ts : List Tick) : (deliveryLoop s ts).2.countP p = 0 := by
  rw [List.countP_eq_zero]
  intro e he
  rcases deliveryLoop_mem s ts e he with h | ⟨b, h⟩ <;> subst h <;>
    simp [hsl, hsb]

theorem tickStep_cap (s : CameraStreamer) (t : Tick) :
    (tickStep s t).1.cap = s.cap ∧ (tickStep s t).1.running = s.running := by
  have hcp : (capPhase s t).cap = s.cap ∧ (capPhase s t).running = s.running := by
    unfold capPhase CameraStreamer.updateIter
    cases t.capRead with
    | none => exact ⟨rfl, rfl⟩
    | some r => cases r <;> cases hr : s.running <;> simp [hr]
  unfold tickStep
  cases hg : (capPhase s t).get_frame t.encodeOk <;> simp [hg, hcp.1, hcp.2]

theorem deliveryLoop_cap (s : CameraStreamer) (ts : List Tick) :
    (deliveryLoop s ts).1.cap = s.cap := by
  induction ts generalizing s with
  | nil => rfl
  | cons t ts ih =>
    rw [deliveryLoop_cons]
    exact (ih (tickStep s t).1).trans (tickStep_cap s t).1

theorem release_events_open (s : CameraStreamer) (h : s.cap.opened = true) :
    (s.release).2
      = [Ev.signalStop, Ev.joinWait 1, Ev.physRelease s.camera_id,
         Ev.logInfo] := by
  unfold CameraStreamer.release VideoCapture.releaseCap
  simp [h]

theorem websocket_camera_ok (camera_id width height fps : Int) (hf : fps ≠ 0)
    (ticks : List Tick) (ek : ExitKind) :
    websocket_camera true camera_id width height fps ticks ek
      = Ev.accept :: Ev.acquire camera_id ::
        ((deliveryLoop (streamer0 camera_id width height fps) ticks).2
          ++ exitEvents ek
          ++ ((deliveryLoop (streamer0 camera_id width height fps)
                ticks).1.release).2) := by
  unfold websocket_camera CameraStreamer.init streamer0
  simp [hf]

/-! ### Claim theorems -/

/-- Claim C1, counterexample: each websocket connection constructs its own
`CameraStreamer`, so a second subscribe for the same `deviceId` before any
unsubscribe performs a second physical device acquisition — the trace of two
overlapping subscribes for device 0 contains two acquisitions, not one, and
no subscriber count exists anywhere in the state. -/
theorem c1_counterexample :
    countAcquire (subscribeOnly true 0 640 480 30
        ++ subscribeOnly true 0 640 480 30) = 2
      ∧ countAcquire (subscribeOnly true 0 640 480 30
        ++ subscribeOnly true 0 640 480 30) ≠ 1 := by
  decide

/-- Claim C1, amended: a second subscribe for the same `deviceId` before any
unsubscribe performs a second physical device acquisition — the handler opens
a fresh capture per connection and shares nothing, so two overlapping
subscribers always produce exactly two acquisitions. -/
theorem c1_two_subscribes_two_acquisitions
    (camera_id w1 h1 f1 w2 h2 f2 : Int) :
    countAcquire (subscribeOnly true camera_id w1 h1 f1
        ++ subscribeOnly true camera_id w2 h2 f2) = 2 := by
  unfold subscribeOnly CameraStreamer.init
  simp [countAcquire, isAcquire, List.countP_append, List.countP_cons]

/-- Claim C2: when device acquisition fails, the handler's trace is exactly
accept, one textual `ERROR: ...` message, then close — the error is sent
exactly once, the connection is closed, the handler returns normally (no
crash), and no device handle was acquired, so no stream state persists. -/
theorem c2_open_failure_error_path (camera_id width height fps : Int)
    (ticks : List Tick) (ek : ExitKind) :
    websocket_camera false camera_id width height fps ticks ek
      = [Ev.accept,
         Ev.sendText ("ERROR: " ++ ("无法打开摄像头 " ++ toString camera_id)),
         Ev.close]
      ∧ countSendText
          (websocket_camera false camera_id width height fps ticks ek) = 1
      ∧ countAcquire
          (websocket_camera false camera_id width height fps ticks ek) = 0 := by
  unfold websocket_camera CameraStreamer.init
  simp [countSendText, countAcquire, isSendText, isAcquire, List.countP_cons]

/-- Claim C3: for every connection whose device acquisition succeeded, the
cleanup `streamer.release()` runs exactly once on every exit path of the
delivery loop — any schedule of ticks, any of the three `except` branches
(disconnect, orderly close, internal exception), and also the
`ZeroDivisionError` path when `fps = 0` — signalling stop once and physically
releasing the device handle once. -/
theorem c3_release_exactly_once (camera_id width height fps : Int)
    (ticks : List Tick) (ek : ExitKind) :
    countSignalStop
        (websocket_camera true camera_id width height fps ticks ek) = 1
      ∧ countPhysRelease
        (websocket_camera true camera_id width height fps ticks ek) = 1 := by
  by_cases hf : fps = 0
  · subst hf
    unfold websocket_camera CameraStreamer.init CameraStreamer.release
      VideoCapture.releaseCap
    simp [countSignalStop, countPhysRelease, isSignalStop, isPhysRelease,
      List.countP_cons]
  · rw [websocket_camera_ok camera_id width height fps hf ticks ek,
      release_events_open _
        ((deliveryLoop_cap (streamer0 camera_id width height fps)
          ticks).symm ▸ rfl)]
    cases ek <;>
      simp [countSignalStop, countPhysRelease, isSignalStop, isPhysRelease,
        List.countP_cons, List.countP_append, exitEvents,
        deliveryLoop_countP_zero isSignalStop rfl (fun _ => rfl),
        deliveryLoop_countP_zero isPhysRelease rfl (fun _ => rfl)]

/-- Claim C4: the frame cache is a single slot with last-writer-wins
semantics: a fresh streamer yields no frame; after one successful capture it
yields that frame's encoding; after a second it yields only the second
frame's encoding, and the slot holds only the second frame. -/
theorem c4_single_slot_cache (s : CameraStreamer) (f1 f2 : Frame)
    (hframe : s.frame = none) (hrun : s.running = true) :
    s.get_frame true = none
      ∧ (s.updateIter (some f1)).1.get_frame true = some (jpegEncode f1)
      ∧ ((s.updateIter (some f1)).1.updateIter (some f2)).1.get_frame true
        = some (jpegEncode f2)
      ∧ ((s.updateIter (some f1)).1.updateIter (some f2)).1.frame
        = some f2 := by
  unfold CameraStreamer.updateIter CameraStreamer.get_frame
  simp [hframe, hrun]

/-- Witness for C4 on a concrete freshly-initialised streamer and frames 5
and 9. -/
theorem c4_single_slot_cache_witness :
    (streamer0 0 640 480 30).frame = none
      ∧ (streamer0 0 640 480 30).running = true
      ∧ ((streamer0 0 640 480 30).get_frame true = none
        ∧ ((streamer0 0 640 480 30).updateIter (some 5)).1.get_frame true
          = some (jpegEncode 5)
        ∧ (((streamer0 0 640 480 30).updateIter (some 5)).1.updateIter
            (some 9)).1.get_frame true = some (jpegEncode 9)
        ∧ (((streamer0 0 640 480 30).updateIter (some 5)).1.updateIter
            (some 9)).1.frame = some 9) :=
  ⟨rfl, rfl, c4_single_slot_cache (streamer0 0 640 480 30) 5 9 rfl rfl⟩

/-- Claim C5, counterexample: the second subscriber's `CameraStreamer.init`
for device 0 with requested 320×240 at 15 fps produces a capture configured
with the second subscriber's own parameters — different from the first
subscriber's capture (640×480 at 30 fps) — and an empty frame cache of its
own, refuting both "its parameters are ignored" and "it receives the
already-running stream's frames". -/
theorem c5_counterexample :
    CameraStreamer.init true 0 320 240 15
      = Except.ok (⟨0, ⟨0, true, 320, 240, 15⟩, none, true⟩, [Ev.acquire 0])
      ∧ (⟨0, true, 320, 240, 15⟩ : VideoCapture)
        ≠ (⟨0, true, 640, 480, 30⟩ : VideoCapture) :=
  ⟨rfl, by decide⟩

/-- Claim C5, amended: a later subscriber to an already-streaming `deviceId`
does not join the running stream: its subscribe opens a fresh capture
configured with its own requested width, height and fps, and starts with its
own empty frame cache, independent of the first subscriber's stream. -/
theorem c5_second_subscriber_own_params (camera_id width height fps : Int) :
    CameraStreamer.init true camera_id width height fps
      = Except.ok
          (⟨camera_id, ⟨camera_id, true, width, height, fps⟩, none, true⟩,
            [Ev.acquire camera_id]) := rfl

/-- Claim C6: on a delivery tick where no payload is available — the cache is
still empty or JPEG encoding fails, i.e. `get_frame` yields `none` — the tick
only sleeps (nothing is sent, nothing is closed, no error is sent), and the
delivery loop continues with the remaining ticks; moreover no run of the
delivery loop ever emits a `close` or an error text, so an encode failure is
never grounds for closing the connection. -/
theorem c6_no_payload_tick_skips (s : CameraStreamer) (t : Tick)
    (ts : List Tick)
    (h : (capPhase s t).get_frame t.encodeOk = none) :
    (tickStep s t).2 = [Ev.sleep]
      ∧ deliveryLoop s (t :: ts)
        = ((deliveryLoop (tickStep s t).1 ts).1,
            Ev.sleep :: (deliveryLoop (tickStep s t).1 ts).2)
      ∧ (∀ (s2 : CameraStreamer) (ts2 : List Tick),
          countClose (deliveryLoop s2 ts2).2 = 0
            ∧ countSendText (deliveryLoop s2 ts2).2 = 0) := by
  have ht : (tickStep s t).2 = [Ev.sleep] := by
    unfold tickStep
    simp [h]
  refine ⟨ht, ?_, fun s2 ts2 =>
    ⟨deliveryLoop_countP_zero isClose rfl (fun _ => rfl) s2 ts2,
      deliveryLoop_countP_zero isSendText rfl (fun _ => rfl) s2 ts2⟩⟩
  rw [deliveryLoop_cons, ht]
  rfl

/-- Witness for C6: a fresh streamer whose cache is empty, a tick where the
capture thread did not run, and an empty remaining schedule. -/
theorem c6_no_payload_tick_skips_witness :
    ((capPhase (streamer0 0 640 480 30) ⟨none, true⟩).get_frame true = none)
      ∧ ((tickStep (streamer0 0 640 480 30) ⟨none, true⟩).2 = [Ev.sleep]
        ∧ deliveryLoop (streamer0 0 640 480 30) [⟨none, true⟩]
          = ((deliveryLoop
                (tickStep (streamer0 0 640 480 30) ⟨none, true⟩).1 []).1,
              Ev.sleep :: (deliveryLoop
                (tickStep (streamer0 0 640 480 30) ⟨none, true⟩).1 []).2)
        ∧ (∀ (s2 : CameraStreamer) (ts2 : List Tick),
            countClose (deliveryLoop s2 ts2).2 = 0
              ∧ countSendText (deliveryLoop s2 ts2).2 = 0)) :=
  ⟨rfl, c6_no_payload_tick_skips (streamer0 0 640 480 30) ⟨none, true⟩ [] rfl⟩

/-- Claim C7: a failed device read never terminates the capture loop: one
iteration of `_update_frame` with a failed `cap.read()` leaves the state
unchanged (cached frame and `running` flag intact, so the `while
self.running` guard still holds and the loop polls again) and only logs a
warning and sleeps. -/
theorem c7_read_failure_nonfatal (s : CameraStreamer)
    (h : s.running = true) :
    s.updateIter none = (s, [Ev.logWarn, Ev.sleep])
      ∧ (s.updateIter none).1.running = true
      ∧ (s.updateIter none).1.frame = s.frame := by
  unfold CameraStreamer.updateIter
  simp [h]

/-- Witness for C7 on a concrete running streamer. -/
theorem c7_read_failure_nonfatal_witness :
    (streamer0 0 640 480 30).running = true
      ∧ ((streamer0 0 640 480 30).updateIter none
          = (streamer0 0 640 480 30, [Ev.logWarn, Ev.sleep])
        ∧ ((streamer0 0 640 480 30).updateIter none).1.running = true
        ∧ ((streamer0 0 640 480 30).updateIter none).1.frame
          = (streamer0 0 640 480 30).frame) :=
  ⟨rfl, c7_read_failure_nonfatal (streamer0 0 640 480 30) rfl⟩

/-- Claim C8: `release` is idempotent on an already-stopped streamer: after a
first `release`, a second `release` leaves the state exactly as it was and
performs zero physical releases of the device handle (OpenCV's
`VideoCapture.release` is a no-op on a closed capture, and `running` is
already false). -/
theorem c8_release_idempotent (s : CameraStreamer) :
    ((s.release).1.release).1 = (s.release).1
      ∧ countPhysRelease ((s.release).1.release).2 = 0 := by
  obtain ⟨cid, ⟨cid2, op, w, h, fp⟩, fr, run⟩ := s
  unfold CameraStreamer.release VideoCapture.releaseCap
  cases op <;>
    simp [countPhysRelease, isPhysRelease, List.countP_cons]

/-- Claim C9: on a streamer whose capture is open, `release` first signals
the capture loop to exit (`running = False`), then waits for the thread with
a bounded timeout of exactly 1 time unit (`thread.join(timeout=1)`) and
proceeds regardless (the function is total), and only afterwards physically
releases the device handle, leaving the capture closed and the loop flag
down. -/
theorem c9_release_sequence (s : CameraStreamer) (h : s.cap.opened = true) :
    (s.release).2
        = [Ev.signalStop, Ev.joinWait 1, Ev.physRelease s.camera_id,
           Ev.logInfo]
      ∧ (s.release).1.cap.opened = false
      ∧ (s.release).1.running = false := by
  refine ⟨release_events_open s h, ?_, ?_⟩ <;>
    · unfold CameraStreamer.release VideoCapture.releaseCap
      simp [h]

/-- Witness for C9 on a concrete open streamer. -/
theorem c9_release_sequence_witness :
    (streamer0 0 640 480 30).cap.opened = true
      ∧ (((streamer0 0 640 480 30).release).2
          = [Ev.signalStop, Ev.joinWait 1, Ev.physRelease 0, Ev.logInfo]
        ∧ ((streamer0 0 640 480 30).release).1.cap.opened = false
        ∧ ((streamer0 0 640 480 30).release).1.running = false) :=
  ⟨rfl, c9_release_sequence (streamer0 0 640 480 30) rfl⟩

/-- Claim C10: for a subscribe with `fps = 0` on a device that opens, the
handler computes `delay = 1.0 / fps` with no guard, raising a division by
zero before any payload is sent; the generic `except Exception` branch
absorbs it and the `finally` block still releases the camera — the full trace
contains no `send_bytes`, one exception log, and one physical release. -/
theorem c10_fps_zero_division (camera_id width height : Int)
    (ticks : List Tick) (ek : ExitKind) :
    websocket_camera true camera_id width height 0 ticks ek
      = [Ev.accept, Ev.acquire camera_id, Ev.logExc, Ev.signalStop,
         Ev.joinWait 1, Ev.physRelease camera_id, Ev.logInfo]
      ∧ countSendBytes
          (websocket_camera true camera_id width height 0 ticks ek) = 0
      ∧ countPhysRelease
          (websocket_camera true camera_id width height 0 ticks ek) = 1 := by
  unfold websocket_camera CameraStreamer.init CameraStreamer.release
    VideoCapture.releaseCap
  simp [countSendBytes, countPhysRelease, isSendBytes, isPhysRelease,
    List.countP_cons]

end CameraStream
